import Mathlib

/-
  Verification development for the Translator-System repository
  (src/translate_media.py and src/app.py).

  The Python code is shallowly embedded: pure text manipulation is
  translated to functions on String / List Char, and every external
  effect (ffmpeg, the speech-recognition engine, the translation model,
  the text-to-speech service, the filesystem) is an oracle parameter of
  the embedded function.  Python exceptions are modelled with the
  PyErr type and Except; a Python function that may raise is embedded
  as a function returning Except PyErr.
-/

/-- Python exception classes relevant to the two source files.
`calledProcess` models subprocess.CalledProcessError, `fileNotFound`
models FileNotFoundError (e.g. a missing ffmpeg binary), `other`
models any other Exception subclass. -/
inductive PyErr
  | calledProcess
  | fileNotFound
  | other
deriving DecidableEq

deriving instance DecidableEq for Except

/-- True on the result of a Python call that returned normally,
false on one that raised. -/
def exceptOk {α : Type} : Except PyErr α → Bool
  | .ok _ => true
  | .error _ => false

/-- Forget the error of a fallible call, keeping only a possible value. -/
def excToOption {α : Type} : Except PyErr α → Option α
  | .ok a => some a
  | .error _ => none

/-- ASCII whitespace as matched by Python str.strip() and the regex
class in the source (the source texts are ASCII). -/
def pyIsSpace (c : Char) : Bool :=
  c = ' ' || c = '\t' || c = '\n' || c = '\r' || c = '\x0b' || c = '\x0c'

/-- Python str.strip() on a character list: drop whitespace from both ends. -/
def pyStripL (l : List Char) : List Char :=
  ((l.dropWhile pyIsSpace).reverse.dropWhile pyIsSpace).reverse

/-- Python str.strip() on a string. -/
def pyStrip (s : String) : String :=
  String.mk (pyStripL s.toList)

/-- Python re.sub(r'\s+', ' ', s): replace every maximal run of
whitespace by a single space.  Processed from the right: a whitespace
character followed by more whitespace contributes nothing extra. -/
def collapseWs : List Char → List Char
  | [] => []
  | c :: cs =>
    if pyIsSpace c then
      match cs with
      | d :: _ => if pyIsSpace d then collapseWs cs else ' ' :: collapseWs cs
      | [] => ' ' :: collapseWs cs
    else c :: collapseWs cs

/-- Python s.replace(String.mk [a, b], String.mk [b]): left-to-right,
non-overlapping replacement of the two-character pattern by its second
character (used for replace(' .', '.') and replace(' ,', ',')). -/
def pyReplace2 (a b : Char) : List Char → List Char
  | [] => []
  | [c] => [c]
  | c :: d :: cs =>
    if c = a && d = b then b :: pyReplace2 a b cs
    else c :: pyReplace2 a b (d :: cs)

/-- Python re.split(r'[.!?]+', s) generalised: split a character list
into the fields between maximal runs of delimiter characters, keeping
empty fields at the ends exactly as re.split does. -/
def splitRuns (p : Char → Bool) : List Char → List (List Char)
  | [] => [[]]
  | c :: cs =>
    if p c then
      match cs with
      | d :: _ => if p d then splitRuns p cs else [] :: splitRuns p cs
      | [] => [] :: splitRuns p cs
    else
      match splitRuns p cs with
      | [] => [[c]]
      | f :: fs => (c :: f) :: fs

/-- The sentence-terminal punctuation class [.!?] of translate_text. -/
def isSentenceTerm (c : Char) : Bool :=
  c = '.' || c = '!' || c = '?'

/-- sentences = [s.strip() for s in re.split(r'[.!?]+', t) if s.strip()] -/
def sentenceUnits (t : String) : List String :=
  (((splitRuns isSentenceTerm t.toList).map pyStripL).filter
    (fun u => !u.isEmpty)).map String.mk

/-- The units of the stripped input that survive the length filter
(the loop in translate_text skips every sentence with len < 3), i.e.
exactly the strings handed to the translation model. -/
def survivingUnits (s : String) : List String :=
  (sentenceUnits (pyStrip s)).filter (fun u => !decide (u.length < 3))

/-- Python str.lower() on the ASCII extensions handled here. -/
def pyToLower (s : String) : String :=
  String.mk (s.toList.map Char.toLower)

/-- os.path.join for one relative component on a POSIX system. -/
def os_path_join (d f : String) : String := d ++ "/" ++ f

namespace TM

/-- translate_media.extract_audio_from_video: runs ffmpeg with
check=True; a CalledProcessError is caught and turned into False,
success returns True, and any other exception propagates. -/
def extract_audio_from_video (run : Except PyErr Unit) : Except PyErr Bool :=
  match run with
  | .ok _ => .ok true
  | .error .calledProcess => .ok false
  | .error e => .error e

/-- translate_media.transcribe_audio: the whole body (model load and
transcription, given by the engine oracle as raw text or an exception)
is inside try/except Exception, so an exception becomes None; a raw
text is stripped, whitespace runs are collapsed, and a space before a
period or comma is removed. -/
def transcribe_audio (engine : Except PyErr String) : Except PyErr (Option String) :=
  match engine with
  | .ok raw =>
      .ok (some (String.mk (pyReplace2 ' ' ','
        (pyReplace2 ' ' '.' (collapseWs (pyStrip raw).toList)))))
  | .error _ => .ok none

/-- translate_media.translate_text: load is the outcome of loading the
tokenizer/model, call is the per-sentence translation (tokenize,
generate, decode).  The outer try/except Exception turns a load
failure into None; a stripped-empty input returns None; otherwise the
input is split on runs of [.!?], units are stripped, empty units and
units shorter than 3 characters are skipped, each remaining unit is
sent to the model (a per-unit exception is skipped by the inner
try/except) and the successful translations are joined with spaces.
The second component records the units actually sent to the model. -/
def translate_text (load : Except PyErr Unit) (call : String → Except PyErr String)
    (english_text : String) : Except PyErr (Option String) × List String :=
  match load with
  | .error _ => (.ok none, [])
  | .ok _ =>
    let t := pyStrip english_text
    if t = "" then (.ok none, [])
    else
      let surviving := (sentenceUnits t).filter (fun u => !decide (u.length < 3))
      let translated := surviving.filterMap (fun u => excToOption (call u))
      (.ok (some (String.intercalate " " translated)), surviving)

/-- translate_media.text_to_speech_gtts: the gTTS call is inside
try/except Exception, so success returns True and any exception
becomes False. -/
def text_to_speech_gtts (tts : Except PyErr Unit) : Except PyErr Bool :=
  match tts with
  | .ok _ => .ok true
  | .error _ => .ok false

/-- translate_media.merge_audio_with_video_simple: runs ffmpeg with
check=True; a CalledProcessError is caught and turned into False,
success returns True, and any other exception propagates. -/
def merge_audio_with_video_simple (run : Except PyErr Unit) : Except PyErr Bool :=
  match run with
  | .ok _ => .ok true
  | .error .calledProcess => .ok false
  | .error e => .error e

/-- The video extension allow-list of translate_media.main. -/
def video_exts : List String := [".mp4", ".avi", ".mov", ".mkv", ".wmv", ".flv"]

/-- The audio extension allow-list of translate_media.main. -/
def audio_exts : List String := [".mp3", ".wav", ".m4a", ".aac", ".flac"]

end TM

/-- The five pipeline stages, in their source order. -/
inductive Stage
  | extract
  | transcribe
  | translate
  | synthesize
  | remux
deriving DecidableEq

/-- The possible endings of one run of translate_media.main. -/
inductive TMOutcome
  | notFound
  | unsupported
  | extractFailed
  | transcribeFailed
  | translateFailed
  | ttsFailed
  | mergeFailed
  | completed
  | crashed (e : PyErr)
deriving DecidableEq

/-- Observable behaviour of one run of translate_media.main: how it
ended, whether the extension classification was reached, whether
os.makedirs was executed, which stage wrappers were invoked in order,
whether the temporary extracted audio file was deleted, how many lines
were appended to a history log (translate_media has no history log, so
this is always 0), and the artifact paths that were computed. -/
structure TMResult where
  outcome : TMOutcome
  classified : Bool
  madeOutputDir : Bool
  stages : List Stage
  removedTemp : Bool
  historyAppends : Nat
  outputAudioPath : Option String
  outputVideoPath : Option String
  tempAudioPath : Option String
deriving DecidableEq

namespace TM

/-- The environment of one run of translate_media.main: whether the
input path exists, its extension (with the dot, as returned by
os.path.splitext), the base name of the file, and the oracles for the
five external effects consumed by the stage wrappers. -/
structure Env where
  inputExists : Bool
  ext : String
  baseName : String
  extractRun : Except PyErr Unit
  engine : Except PyErr String
  load : Except PyErr Unit
  call : String → Except PyErr String
  tts : Except PyErr Unit
  mergeRun : Except PyErr Unit

/-- The part of translate_media.main from Step 2 (transcription)
onwards, shared by the video path (stages0 = [extract], after a
successful extraction) and the audio path (stages0 = []).  base holds
the result fields fixed before the stages run.  The temp file removal
at the end only happens for a video input, and only on the
all-successful path; os.path.exists(temp_audio_path) is true there
because it is reached only after ffmpeg wrote the file. -/
def mainAfterExtract (env : Env) (is_video : Bool) (base : TMResult)
    (stages0 : List Stage) : TMResult :=
  match transcribe_audio env.engine with
  | .error e => { base with outcome := .crashed e, stages := stages0 ++ [.transcribe] }
  | .ok none => { base with outcome := .transcribeFailed, stages := stages0 ++ [.transcribe] }
  | .ok (some english_text) =>
    if english_text = "" then
      { base with outcome := .transcribeFailed, stages := stages0 ++ [.transcribe] }
    else
      match (translate_text env.load env.call english_text).fst with
      | .error e =>
          { base with outcome := .crashed e, stages := stages0 ++ [.transcribe, .translate] }
      | .ok none =>
          { base with outcome := .translateFailed, stages := stages0 ++ [.transcribe, .translate] }
      | .ok (some hindi_text) =>
        if hindi_text = "" then
          { base with outcome := .translateFailed, stages := stages0 ++ [.transcribe, .translate] }
        else
          match text_to_speech_gtts env.tts with
          | .error e =>
              { base with
                outcome := .crashed e,
                stages := stages0 ++ [.transcribe, .translate, .synthesize] }
          | .ok false =>
              { base with
                outcome := .ttsFailed,
                stages := stages0 ++ [.transcribe, .translate, .synthesize] }
          | .ok true =>
            if is_video then
              match merge_audio_with_video_simple env.mergeRun with
              | .error e =>
                  { base with
                    outcome := .crashed e,
                    stages := stages0 ++ [.transcribe, .translate, .synthesize, .remux] }
              | .ok false =>
                  { base with
                    outcome := .mergeFailed,
                    stages := stages0 ++ [.transcribe, .translate, .synthesize, .remux] }
              | .ok true =>
                  { base with
                    outcome := .completed,
                    stages := stages0 ++ [.transcribe, .translate, .synthesize, .remux],
                    removedTemp := true }
            else
              { base with
                outcome := .completed,
                stages := stages0 ++ [.transcribe, .translate, .synthesize] }

/-- translate_media.main: aborts if the input path does not exist;
classifies the input by its lowercased extension against the two
allow-lists and aborts on an unsupported one; creates the output
directory; derives the output paths (the temporary extraction target
is the fixed name temp_audio.wav); for a video input runs the
extraction stage and aborts on its failure; then runs the remaining
stages via mainAfterExtract. -/
def main (env : Env) : TMResult :=
  if env.inputExists = false then
    ⟨.notFound, false, false, [], false, 0, none, none, none⟩
  else
    let file_ext := pyToLower env.ext
    let is_video := video_exts.contains file_ext
    let is_audio := audio_exts.contains file_ext
    if !(is_video || is_audio) then
      ⟨.unsupported, true, false, [], false, 0, none, none, none⟩
    else
      let output_audio_path := os_path_join "translated_output" (env.baseName ++ "_hindi.wav")
      let output_video_path :=
        if is_video then some (os_path_join "translated_output" (env.baseName ++ "_hindi.mp4"))
        else none
      let temp_audio_path :=
        if is_video then some (os_path_join "translated_output" "temp_audio.wav") else none
      let base : TMResult :=
        ⟨.completed, true, true, [], false, 0, some output_audio_path,
          output_video_path, temp_audio_path⟩
      if is_video then
        match extract_audio_from_video env.extractRun with
        | .error e => { base with outcome := .crashed e, stages := [.extract] }
        | .ok false => { base with outcome := .extractFailed, stages := [.extract] }
        | .ok true => mainAfterExtract env true base [.extract]
      else
        mainAfterExtract env false base []

end TM

namespace App

/-- app.transcribe_audio: the model load and transcription are inside
try/except Exception, so an exception becomes None; a raw text is only
stripped (no whitespace collapsing, no punctuation fix). -/
def transcribe_audio (engine : Except PyErr String) : Except PyErr (Option String) :=
  match engine with
  | .ok raw => .ok (some (pyStrip raw))
  | .error _ => .ok none

/-- app.translate_text: the whole body is inside try/except Exception.
The input is handed to the model in one piece (tokenize the full text,
generate, decode); there is no empty-input guard, no sentence
splitting and no length filter.  The second component records the
texts actually sent to the model. -/
def translate_text (load : Except PyErr Unit) (call : String → Except PyErr String)
    (english_text : String) : Except PyErr (Option String) × List String :=
  match load with
  | .error _ => (.ok none, [])
  | .ok _ =>
    match call english_text with
    | .ok t => (.ok (some t), [english_text])
    | .error _ => (.ok none, [english_text])

/-- app.text_to_speech_gtts: identical try/except Exception wrapper
around the gTTS call. -/
def text_to_speech_gtts (tts : Except PyErr Unit) : Except PyErr Bool :=
  match tts with
  | .ok _ => .ok true
  | .error _ => .ok false

/-- The environment of one run of app.process_file (the classification
into is_video/is_audio is done by the caller before process_file). -/
structure Env where
  isVideo : Bool
  isAudio : Bool
  baseName : String
  extractRun : Except PyErr Unit
  engine : Except PyErr String
  load : Except PyErr Unit
  call : String → Except PyErr String
  tts : Except PyErr Unit
  mergeRun : Except PyErr Unit

/-- How one run of app.process_file ended: normally, or by an
exception escaping one of the two ffmpeg wrappers it calls. -/
inductive AppOutcome
  | finished
  | crashed (e : PyErr)
deriving DecidableEq

/-- Observable behaviour of one run of app.process_file. -/
structure AppResult where
  outcome : AppOutcome
  stages : List Stage
  historyAppends : Nat
  ttsSuccess : Bool
  outputAudioPath : String
  outputVideoPath : Option String
  tempAudioPath : Option String
deriving DecidableEq

/-- app.process_file (the stage sequence inside the Translate button,
identical in the YouTube and the upload section): derives the output
paths (the temporary extraction target is base_name_temp_audio.wav);
for a video input invokes extraction and ignores its boolean result;
always transcribes the chosen audio path; translates only a non-empty
transcription; synthesizes only a non-empty translation; for a video
input always invokes the remux, whatever happened before; finally
appends exactly one line to history.txt.  An exception escaping the
extract or merge wrapper aborts the run before the history write. -/
def process_file (env : Env) : AppResult :=
  let output_audio_path := os_path_join "translated_output" (env.baseName ++ "_hindi.wav")
  let output_video_path :=
    if env.isVideo then some (os_path_join "translated_output" (env.baseName ++ "_hindi.mp4"))
    else none
  let temp_audio_path :=
    if env.isVideo then
      some (os_path_join "translated_output" (env.baseName ++ "_temp_audio.wav"))
    else none
  let base : AppResult :=
    ⟨.finished, [], 1, false, output_audio_path, output_video_path, temp_audio_path⟩
  let st0 : List Stage := if env.isVideo then [.extract] else []
  let extractCrash : Option PyErr :=
    if env.isVideo then
      match TM.extract_audio_from_video env.extractRun with
      | .error e => some e
      | .ok _ => none
    else none
  match extractCrash with
  | some e => { base with outcome := .crashed e, stages := st0, historyAppends := 0 }
  | none =>
    let english_text : Option String :=
      match transcribe_audio env.engine with
      | .ok t => t
      | .error _ => none
    let translateInvoked : Bool :=
      match english_text with
      | some t => !(t == "")
      | none => false
    let hindi_text : Option String :=
      if translateInvoked then
        match english_text with
        | some t =>
          (match (translate_text env.load env.call t).fst with
            | .ok h => h
            | .error _ => none)
        | none => none
      else none
    let ttsInvoked : Bool :=
      match hindi_text with
      | some h => !(h == "")
      | none => false
    let tts_success : Bool :=
      if ttsInvoked then
        match text_to_speech_gtts env.tts with
        | .ok b => b
        | .error _ => false
      else false
    let stages := st0 ++ [.transcribe]
      ++ (if translateInvoked then [.translate] else [])
      ++ (if ttsInvoked then [.synthesize] else [])
      ++ (if env.isVideo then [.remux] else [])
    if env.isVideo then
      match TM.merge_audio_with_video_simple env.mergeRun with
      | .error e =>
          { base with
            outcome := .crashed e, stages := stages,
            historyAppends := 0, ttsSuccess := tts_success }
      | .ok _ => { base with stages := stages, ttsSuccess := tts_success }
    else
      { base with stages := stages, ttsSuccess := tts_success }

end App

section Helpers

/-- A stage result carrying no usable text: the call either raised
(caught, giving None) or yielded a text equal to the empty string;
both are falsy in the orchestrators.  Used for the transcribe and the
translate results. -/
def noUsableText (x : Except PyErr (Option String)) : Prop :=
  ∀ t, x = Except.ok (some t) → t = ""

/-- mainAfterExtract never touches the classification flag, the
directory-creation flag, the history count or the artifact paths: it
only updates the outcome, the stage list and the temp-removal flag. -/
theorem mainAfterExtract_fixed (env : TM.Env) (v : Bool) (base : TMResult)
    (st0 : List Stage) :
    (TM.mainAfterExtract env v base st0).classified = base.classified ∧
    (TM.mainAfterExtract env v base st0).madeOutputDir = base.madeOutputDir ∧
    (TM.mainAfterExtract env v base st0).historyAppends = base.historyAppends ∧
    (TM.mainAfterExtract env v base st0).outputAudioPath = base.outputAudioPath ∧
    (TM.mainAfterExtract env v base st0).outputVideoPath = base.outputVideoPath ∧
    (TM.mainAfterExtract env v base st0).tempAudioPath = base.tempAudioPath := by
  unfold TM.mainAfterExtract
  repeat' split
  all_goals exact ⟨rfl, rfl, rfl, rfl, rfl, rfl⟩

/-- The result template of translate_media.main for a video input,
holding the artifact paths computed before any stage runs. -/
def tmVideoBase (env : TM.Env) : TMResult :=
  ⟨TMOutcome.completed, true, true, [], false, 0,
    some (os_path_join "translated_output" (env.baseName ++ "_hindi.wav")),
    some (os_path_join "translated_output" (env.baseName ++ "_hindi.mp4")),
    some (os_path_join "translated_output" "temp_audio.wav")⟩

/-- The result template of translate_media.main for an audio input. -/
def tmAudioBase (env : TM.Env) : TMResult :=
  ⟨TMOutcome.completed, true, true, [], false, 0,
    some (os_path_join "translated_output" (env.baseName ++ "_hindi.wav")),
    none, none⟩

/-- Reduction of translate_media.main for an existing video input:
the run is the extraction step followed by mainAfterExtract. -/
theorem tm_main_video (env : TM.Env) (hex : env.inputExists = true)
    (hv : pyToLower env.ext ∈ TM.video_exts) :
    TM.main env =
      match TM.extract_audio_from_video env.extractRun with
      | .error e =>
          { tmVideoBase env with outcome := TMOutcome.crashed e, stages := [Stage.extract] }
      | .ok false =>
          { tmVideoBase env with outcome := TMOutcome.extractFailed, stages := [Stage.extract] }
      | .ok true => TM.mainAfterExtract env true (tmVideoBase env) [Stage.extract] := by
  unfold TM.main
  simp [hex, hv, tmVideoBase]

/-- Reduction of translate_media.main for an existing audio input:
the run is mainAfterExtract with no extraction step. -/
theorem tm_main_audio (env : TM.Env) (hex : env.inputExists = true)
    (hv : pyToLower env.ext ∉ TM.video_exts)
    (ha : pyToLower env.ext ∈ TM.audio_exts) :
    TM.main env = TM.mainAfterExtract env false (tmAudioBase env) [] := by
  unfold TM.main
  simp [hex, hv, ha, tmAudioBase]

/-- On the video path, mainAfterExtract sets the temp-removal flag
exactly on the fully successful run, which also runs all four
remaining stages. -/
theorem mainAfterExtract_video_cleanup (env : TM.Env) (base : TMResult)
    (st0 : List Stage) (hb : base.removedTemp = false) :
    ((TM.mainAfterExtract env true base st0).removedTemp = true ↔
      (TM.mainAfterExtract env true base st0).outcome = TMOutcome.completed) ∧
    ((TM.mainAfterExtract env true base st0).outcome = TMOutcome.completed →
      (TM.mainAfterExtract env true base st0).stages =
        st0 ++ [Stage.transcribe, Stage.translate, Stage.synthesize, Stage.remux]) := by
  unfold TM.mainAfterExtract
  repeat' split
  all_goals simp_all

theorem process_file_paths (env : App.Env) :
    (App.process_file env).outputAudioPath =
      os_path_join "translated_output" (env.baseName ++ "_hindi.wav") ∧
    (App.process_file env).outputVideoPath =
      (if env.isVideo then
        some (os_path_join "translated_output" (env.baseName ++ "_hindi.mp4"))
      else none) ∧
    (App.process_file env).tempAudioPath =
      (if env.isVideo then
        some (os_path_join "translated_output" (env.baseName ++ "_temp_audio.wav"))
      else none) := by
  unfold App.process_file
  repeat' split
  all_goals simp_all

theorem process_file_history_one (env : App.Env)
    (hx : env.extractRun = Except.ok ()) (hm : env.mergeRun = Except.ok ()) :
    (App.process_file env).historyAppends = 1 := by
  unfold App.process_file
  repeat' split
  all_goals simp_all [TM.extract_audio_from_video, TM.merge_audio_with_video_simple]

theorem process_file_transcribe_gate (env : App.Env)
    (hf : noUsableText (App.transcribe_audio env.engine)) :
    Stage.translate ∉ (App.process_file env).stages ∧
    Stage.synthesize ∉ (App.process_file env).stages := by
  have hengl : App.transcribe_audio env.engine = Except.ok none ∨
      App.transcribe_audio env.engine = Except.ok (some "") := by
    rcases heng : env.engine with e | raw
    · simp [App.transcribe_audio, heng]
    · right
      have h0 : pyStrip raw = "" :=
        hf (pyStrip raw) (by simp [App.transcribe_audio, heng])
      simp [App.transcribe_audio, heng, h0]
  unfold App.process_file
  rcases hengl with h2 | h2 <;> simp [h2] <;> repeat' split <;> simp_all

theorem process_file_remux_always (env : App.Env)
    (hv : env.isVideo = true) (hx : env.extractRun = Except.ok ()) :
    Stage.remux ∈ (App.process_file env).stages := by
  unfold App.process_file
  repeat' split
  all_goals simp_all [TM.extract_audio_from_video]

theorem process_file_transcribe_always (env : App.Env)
    (hx : env.extractRun = Except.ok () ∨ env.extractRun = Except.error PyErr.calledProcess) :
    Stage.transcribe ∈ (App.process_file env).stages := by
  have hx2 : TM.extract_audio_from_video env.extractRun = Except.ok true ∨
      TM.extract_audio_from_video env.extractRun = Except.ok false := by
    rcases hx with hx | hx <;> rw [hx] <;> simp [TM.extract_audio_from_video]
  unfold App.process_file
  repeat' split
  all_goals rcases hx2 with hx2 | hx2 <;> simp_all

theorem translate_text_ok (load : Except PyErr Unit) (call : String → Except PyErr String)
    (s : String) : ∃ o, (TM.translate_text load call s).fst = Except.ok o := by
  rcases load with e | u
  · exact ⟨none, rfl⟩
  · unfold TM.translate_text
    by_cases h : pyStrip s = "" <;> simp [h]

theorem transcribe_audio_shapes (engine : Except PyErr String) :
    TM.transcribe_audio engine = Except.ok none ∨
    ∃ t, TM.transcribe_audio engine = Except.ok (some t) := by
  rcases engine with e | raw <;> simp [TM.transcribe_audio]

theorem mainAfterExtract_transcribe_gate (env : TM.Env) (v : Bool) (base : TMResult)
    (st0 : List Stage) (hf : noUsableText (TM.transcribe_audio env.engine)) :
    (TM.mainAfterExtract env v base st0).stages = st0 ++ [Stage.transcribe] := by
  have h2 : TM.transcribe_audio env.engine = Except.ok none ∨
      TM.transcribe_audio env.engine = Except.ok (some "") := by
    rcases transcribe_audio_shapes env.engine with h | ⟨t, h⟩
    · exact Or.inl h
    · exact Or.inr (by rw [h, hf t h])
  unfold TM.mainAfterExtract
  rcases h2 with h2 | h2 <;> simp [h2]

theorem mainAfterExtract_translate_gate (env : TM.Env) (v : Bool) (base : TMResult)
    (st0 : List Stage)
    (h4 : Stage.synthesize ∉ st0) (h5 : Stage.remux ∉ st0)
    (htf : ∀ s, noUsableText (TM.translate_text env.load env.call s).fst) :
    Stage.synthesize ∉ (TM.mainAfterExtract env v base st0).stages ∧
    Stage.remux ∉ (TM.mainAfterExtract env v base st0).stages := by
  rcases transcribe_audio_shapes env.engine with h2 | ⟨t, h2⟩
  · rw [mainAfterExtract_transcribe_gate env v base st0
      (by intro u hu; rw [h2] at hu; cases hu)]
    simp [h4, h5]
  · by_cases ht : t = ""
    · rw [ht] at h2
      rw [mainAfterExtract_transcribe_gate env v base st0
        (by intro u hu; rw [h2] at hu; injection hu with h3; injection h3 with h4x; exact h4x.symm)]
      simp [h4, h5]
    · unfold TM.mainAfterExtract
      rw [h2]
      simp only [ht]
      obtain ⟨o, ho⟩ := translate_text_ok env.load env.call t
      cases o with
      | none => simp [ho, ht, h4, h5]
      | some h =>
        have hh := htf t h ho
        subst hh
        simp [ho, ht, h4, h5]

theorem mainAfterExtract_tts_gate (env : TM.Env) (v : Bool) (base : TMResult)
    (st0 : List Stage) (h5 : Stage.remux ∉ st0) (err : PyErr)
    (ht : env.tts = Except.error err) :
    Stage.remux ∉ (TM.mainAfterExtract env v base st0).stages := by
  unfold TM.mainAfterExtract
  simp only [ht, TM.text_to_speech_gtts]
  repeat' split
  all_goals simp_all

theorem tm_main_notFound (env : TM.Env) (h : env.inputExists = false) :
    TM.main env =
      ⟨TMOutcome.notFound, false, false, [], false, 0, none, none, none⟩ := by
  simp [TM.main, h]

theorem tm_main_unsupported (env : TM.Env)
    (hex : env.inputExists = true)
    (hv : pyToLower env.ext ∉ TM.video_exts)
    (ha : pyToLower env.ext ∉ TM.audio_exts) :
    TM.main env =
      ⟨TMOutcome.unsupported, true, false, [], false, 0, none, none, none⟩ := by
  simp [TM.main, hex, hv, ha]

theorem tm_main_transcribe_gate (env : TM.Env)
    (hf : noUsableText (TM.transcribe_audio env.engine)) :
    Stage.translate ∉ (TM.main env).stages ∧
    Stage.synthesize ∉ (TM.main env).stages ∧
    Stage.remux ∉ (TM.main env).stages := by
  by_cases hex : env.inputExists = true
  · by_cases hv : pyToLower env.ext ∈ TM.video_exts
    · rw [tm_main_video env hex hv]
      rcases hx : env.extractRun with e | u
      · cases e <;> simp [TM.extract_audio_from_video]
      · cases u
        simp only [TM.extract_audio_from_video]
        rw [mainAfterExtract_transcribe_gate env true (tmVideoBase env) [Stage.extract] hf]
        simp
    · by_cases ha : pyToLower env.ext ∈ TM.audio_exts
      · rw [tm_main_audio env hex hv ha]
        rw [mainAfterExtract_transcribe_gate env false (tmAudioBase env) [] hf]
        simp
      · rw [tm_main_unsupported env hex hv ha]
        simp
  · rw [tm_main_notFound env (by revert hex; cases env.inputExists <;> simp)]
    simp

theorem tm_main_translate_gate (env : TM.Env)
    (htf : ∀ s, noUsableText (TM.translate_text env.load env.call s).fst) :
    Stage.synthesize ∉ (TM.main env).stages ∧
    Stage.remux ∉ (TM.main env).stages := by
  by_cases hex : env.inputExists = true
  · by_cases hv : pyToLower env.ext ∈ TM.video_exts
    · rw [tm_main_video env hex hv]
      rcases hx : env.extractRun with e | u
      · cases e <;> simp [TM.extract_audio_from_video]
      · cases u
        exact mainAfterExtract_translate_gate env true (tmVideoBase env) [Stage.extract]
          (by simp) (by simp) htf
    · by_cases ha : pyToLower env.ext ∈ TM.audio_exts
      · rw [tm_main_audio env hex hv ha]
        exact mainAfterExtract_translate_gate env false (tmAudioBase env) []
          (by simp) (by simp) htf
      · rw [tm_main_unsupported env hex hv ha]
        simp
  · rw [tm_main_notFound env (by revert hex; cases env.inputExists <;> simp)]
    simp

theorem tm_main_tts_gate (env : TM.Env) (err : PyErr)
    (ht : env.tts = Except.error err) :
    Stage.remux ∉ (TM.main env).stages := by
  by_cases hex : env.inputExists = true
  · by_cases hv : pyToLower env.ext ∈ TM.video_exts
    · rw [tm_main_video env hex hv]
      rcases hx : env.extractRun with e | u
      · cases e <;> simp [TM.extract_audio_from_video]
      · cases u
        exact mainAfterExtract_tts_gate env true (tmVideoBase env) [Stage.extract]
          (by simp) err ht
    · by_cases ha : pyToLower env.ext ∈ TM.audio_exts
      · rw [tm_main_audio env hex hv ha]
        exact mainAfterExtract_tts_gate env false (tmAudioBase env) [] (by simp) err ht
      · rw [tm_main_unsupported env hex hv ha]
        simp
  · rw [tm_main_notFound env (by revert hex; cases env.inputExists <;> simp)]
    simp

theorem tm_main_extract_gate (env : TM.Env) (err : PyErr)
    (hv : pyToLower env.ext ∈ TM.video_exts)
    (hx : env.extractRun = Except.error err) :
    Stage.transcribe ∉ (TM.main env).stages := by
  by_cases hex : env.inputExists = true
  · rw [tm_main_video env hex hv]
    rw [hx]
    cases err <;> simp [TM.extract_audio_from_video]
  · rw [tm_main_notFound env (by revert hex; cases env.inputExists <;> simp)]
    simp

theorem tm_main_history_zero (env : TM.Env) : (TM.main env).historyAppends = 0 := by
  by_cases hex : env.inputExists = true
  · by_cases hv : pyToLower env.ext ∈ TM.video_exts
    · rw [tm_main_video env hex hv]
      rcases hx : env.extractRun with e | u
      · cases e <;> simp [TM.extract_audio_from_video, tmVideoBase]
      · cases u
        simp only [TM.extract_audio_from_video]
        rw [(mainAfterExtract_fixed env true (tmVideoBase env) [Stage.extract]).2.2.1]
        rfl
    · by_cases ha : pyToLower env.ext ∈ TM.audio_exts
      · rw [tm_main_audio env hex hv ha]
        rw [(mainAfterExtract_fixed env false (tmAudioBase env) []).2.2.1]
        rfl
      · rw [tm_main_unsupported env hex hv ha]
  · rw [tm_main_notFound env (by revert hex; cases env.inputExists <;> simp)]

/-- A character list in which every whitespace character is a plain
space and no two spaces are adjacent: the shape produced by collapsing
whitespace runs to single spaces. -/
def wsNormalized : List Char → Bool
  | [] => true
  | [c] => !pyIsSpace c || (c == ' ')
  | c :: d :: cs =>
    (!pyIsSpace c || (c == ' ')) && !(c == ' ' && d == ' ') && wsNormalized (d :: cs)

theorem collapseWs_head_not_space (c : Char) (cs : List Char) (h : pyIsSpace c = false) :
    collapseWs (c :: cs) = c :: collapseWs cs := by
  simp [collapseWs, h]

/-- A character that is not whitespace is in particular not a space. -/
theorem not_pyIsSpace_beq_space {c : Char} (h : ¬pyIsSpace c = true) :
    (c == ' ') = false := by
  by_cases hc : c = ' '
  · subst hc
    exact absurd (by decide : pyIsSpace ' ' = true) h
  · simp [hc]

/-- collapseWs leaves only single spaces as whitespace: every run of
whitespace has been replaced by one space. -/
theorem collapseWs_wsNormalized (l : List Char) : wsNormalized (collapseWs l) = true := by
  induction l using collapseWs.induct with
  | case1 => rfl
  | case2 c hpc d tail hpd ih =>
    have he : collapseWs (c :: d :: tail) = collapseWs (d :: tail) := by
      simp [collapseWs, hpc, hpd]
    rw [he]
    exact ih
  | case3 c hpc d tail hpd ih =>
    have he : collapseWs (c :: d :: tail) = ' ' :: collapseWs (d :: tail) := by
      simp [collapseWs, hpc, hpd]
    have he2 : collapseWs (d :: tail) = d :: collapseWs tail := by
      simp [collapseWs]
      intro hd
      exact absurd hd hpd
    rw [he, he2]
    rw [he2] at ih
    simp [wsNormalized, not_pyIsSpace_beq_space hpd]
    exact ih
  | case4 c hpc _ih =>
    have he : collapseWs [c] = [' '] := by simp [collapseWs, hpc]
    rw [he]
    rfl
  | case5 c cs hpc ih =>
    have he : collapseWs (c :: cs) = c :: collapseWs cs := by
      simp [collapseWs, hpc]
    rw [he]
    cases hxs : collapseWs cs with
    | nil => simp [wsNormalized, hpc]
    | cons x rest =>
      rw [hxs] at ih
      simp [wsNormalized, hpc, not_pyIsSpace_beq_space hpc]
      exact ih

end Helpers

/-- C10: in translate_media.main, when the input path does not exist
the run aborts at once: the extension is never classified, no stage
runs, the output directory is not created, nothing is removed and no
history line is written. -/
theorem c10_missing_input_aborts (env : TM.Env) (h : env.inputExists = false) :
    TM.main env =
      ⟨TMOutcome.notFound, false, false, [], false, 0, none, none, none⟩ := by
  simp [TM.main, h]

/-- Witness for c10_missing_input_aborts at a concrete environment. -/
theorem c10_missing_input_aborts_witness :
    TM.main ⟨false, ".mp4", "clip", Except.ok (), Except.ok "hello there",
        Except.ok (), fun u => Except.ok u, Except.ok (), Except.ok ()⟩ =
      ⟨TMOutcome.notFound, false, false, [], false, 0, none, none, none⟩ :=
  c10_missing_input_aborts _ rfl

/-- C5: in translate_media.main, an existing input whose lowercased
extension is in neither allow-list aborts with the unsupported-input
result: no stage runs, the output directory is not created, and no
history line is written. -/
theorem c5_unsupported_extension_aborts (env : TM.Env)
    (hex : env.inputExists = true)
    (hv : pyToLower env.ext ∉ TM.video_exts)
    (ha : pyToLower env.ext ∉ TM.audio_exts) :
    TM.main env =
      ⟨TMOutcome.unsupported, true, false, [], false, 0, none, none, none⟩ := by
  simp [TM.main, hex, hv, ha]

/-- Witness for c5_unsupported_extension_aborts on a .txt input. -/
theorem c5_unsupported_extension_aborts_witness :
    TM.main ⟨true, ".txt", "notes", Except.ok (), Except.ok "hello there",
        Except.ok (), fun u => Except.ok u, Except.ok (), Except.ok ()⟩ =
      ⟨TMOutcome.unsupported, true, false, [], false, 0, none, none, none⟩ :=
  c5_unsupported_extension_aborts _ rfl (by decide) (by decide)

/-- C9: in translate_media.main, for a video input the temporary
extracted audio file is removed exactly when the run completed, i.e.
when every stage (extract, transcribe, translate, synthesize, remux)
succeeded; on any stage failure or crash the function returns with the
temp file left on disk. -/
theorem c9_temp_cleanup_on_success (env : TM.Env)
    (hex : env.inputExists = true)
    (hv : pyToLower env.ext ∈ TM.video_exts) :
    ((TM.main env).removedTemp = true ↔ (TM.main env).outcome = TMOutcome.completed) ∧
    ((TM.main env).outcome = TMOutcome.completed →
      (TM.main env).stages =
        [Stage.extract, Stage.transcribe, Stage.translate, Stage.synthesize, Stage.remux]) := by
  rw [tm_main_video env hex hv]
  rcases h : env.extractRun with e | u
  · cases e <;> simp [TM.extract_audio_from_video, tmVideoBase]
  · cases u
    exact mainAfterExtract_video_cleanup env (tmVideoBase env) [Stage.extract] rfl

/-- Witness for c9_temp_cleanup_on_success at a concrete fully
successful video environment. -/
theorem c9_temp_cleanup_on_success_witness :
    ((TM.main ⟨true, ".mp4", "movie", Except.ok (), Except.ok "Hello there friend",
        Except.ok (), fun u => Except.ok ("T" ++ u), Except.ok (), Except.ok ()⟩).removedTemp
          = true ↔
      (TM.main ⟨true, ".mp4", "movie", Except.ok (), Except.ok "Hello there friend",
        Except.ok (), fun u => Except.ok ("T" ++ u), Except.ok (), Except.ok ()⟩).outcome
          = TMOutcome.completed) ∧
    ((TM.main ⟨true, ".mp4", "movie", Except.ok (), Except.ok "Hello there friend",
        Except.ok (), fun u => Except.ok ("T" ++ u), Except.ok (), Except.ok ()⟩).outcome
          = TMOutcome.completed →
      (TM.main ⟨true, ".mp4", "movie", Except.ok (), Except.ok "Hello there friend",
        Except.ok (), fun u => Except.ok ("T" ++ u), Except.ok (), Except.ok ()⟩).stages =
        [Stage.extract, Stage.transcribe, Stage.translate, Stage.synthesize, Stage.remux]) :=
  c9_temp_cleanup_on_success _ rfl (by decide)

/-- C8 counterexample: the UI entry point transcribe_audio does not
post-process the raw engine text: on the raw text "a  b ." it returns
the text unchanged (only stripped), while the claimed post-processing
(collapse whitespace runs, drop the space before the period) yields
"a b.", a different string. -/
theorem c8_claim_counterexample :
    App.transcribe_audio (Except.ok "a  b .") = Except.ok (some "a  b .") ∧
    TM.transcribe_audio (Except.ok "a  b .") = Except.ok (some "a b.") ∧
    ("a  b ." : String) ≠ "a b." := by
  refine ⟨rfl, ?_, by decide⟩
  show Except.ok (some (String.mk (pyReplace2 ' ' ','
    (pyReplace2 ' ' '.' (collapseWs (pyStrip "a  b .").toList))))) = _
  decide

/-- C8 (amended): the direct-invocation transcribe_audio post-processes
the raw engine text by stripping it, collapsing every whitespace run to
a single space (so the result has no whitespace other than single
spaces) and removing a space immediately preceding a period or a
comma; the UI entry point transcribe_audio only strips the raw text. -/
theorem c8_transcribe_postprocessing (raw : String) :
    TM.transcribe_audio (Except.ok raw) =
      Except.ok (some (String.mk (pyReplace2 ' ' ','
        (pyReplace2 ' ' '.' (collapseWs (pyStrip raw).toList))))) ∧
    wsNormalized (collapseWs (pyStrip raw).toList) = true ∧
    App.transcribe_audio (Except.ok raw) = Except.ok (some (pyStrip raw)) :=
  ⟨rfl, collapseWs_wsNormalized (pyStrip raw).toList, rfl⟩

/-- C6 counterexample: the UI entry point translate_text has no
empty-input guard: on the empty string it invokes the translation
model once (on "") and returns that call's result as a success rather
than failing. -/
theorem c6_claim_counterexample :
    App.translate_text (Except.ok ()) (fun _ => Except.ok "X") "" =
      (Except.ok (some "X"), [""]) ∧
    ([""] : List String) ≠ [] := by
  exact ⟨rfl, by decide⟩

/-- C6 (amended): on an empty or whitespace-only input the
direct-invocation translate_text returns failure (None) with zero
calls to the translation model, whatever the model-load outcome; the
UI entry point translate_text instead passes the input string to the
model as one call. -/
theorem c6_empty_input_translate (load : Except PyErr Unit)
    (call : String → Except PyErr String) (s : String) (h : pyStrip s = "") :
    TM.translate_text load call s = (Except.ok none, []) ∧
    (App.translate_text (Except.ok ()) call s).snd = [s] := by
  constructor
  · rcases load with e | u
    · rfl
    · simp [TM.translate_text, h]
  · rcases hc : call s with e | t <;> simp [App.translate_text, hc]

/-- Witness for c6_empty_input_translate on the whitespace input "  ". -/
theorem c6_empty_input_translate_witness :
    TM.translate_text (Except.ok ()) (fun u => Except.ok u) "  " = (Except.ok none, []) ∧
    (App.translate_text (Except.ok ()) (fun u => Except.ok u) "  ").snd = ["  "] :=
  c6_empty_input_translate (Except.ok ()) (fun u => Except.ok u) "  " (by decide)

/-- C1 counterexample: on "Hello world. Hi!" the direct-invocation
translate operation sends exactly one unit to the model, not the two
units the claim names: the trimmed unit "Hi" has length 2 and is
discarded by the minimum-length-3 filter; and the UI entry point sends
the whole undivided text as a single unit. -/
theorem c1_claim_counterexample :
    (TM.translate_text (Except.ok ()) (fun u => Except.ok u) "Hello world. Hi!").snd =
      ["Hello world"] ∧
    (App.translate_text (Except.ok ()) (fun u => Except.ok u) "Hello world. Hi!").snd =
      ["Hello world. Hi!"] ∧
    (["Hello world"] : List String) ≠ ["Hello world", "Hi"] := by
  refine ⟨by decide, rfl, by decide⟩

/-- C1 (amended): for every non-whitespace input, the direct-invocation
translate operation splits the stripped input on runs of sentence
punctuation, trims the pieces, discards empty pieces and pieces
shorter than 3 characters, sends exactly the surviving units to the
model in order, and returns the space-joined successful translations;
on "Hello world. Hi!" the trimmed pieces are "Hello world" and "Hi",
and "Hi" (2 characters) is discarded, so exactly one unit is
translated. -/
theorem c1_translate_unit_splitting (call : String → Except PyErr String) (s : String)
    (h : pyStrip s ≠ "") :
    TM.translate_text (Except.ok ()) call s =
      (Except.ok (some (String.intercalate " "
        ((survivingUnits s).filterMap (fun u => excToOption (call u))))),
        survivingUnits s) ∧
    sentenceUnits (pyStrip "Hello world. Hi!") = ["Hello world", "Hi"] ∧
    survivingUnits "Hello world. Hi!" = ["Hello world"] := by
  refine ⟨?_, by decide, by decide⟩
  unfold TM.translate_text survivingUnits
  simp [h]

/-- Witness for c1_translate_unit_splitting with the identity model on
the spec's own example input. -/
theorem c1_translate_unit_splitting_witness :
    TM.translate_text (Except.ok ()) (fun u => Except.ok u) "Hello world. Hi!" =
      (Except.ok (some "Hello world"), ["Hello world"]) := by
  have h := (c1_translate_unit_splitting (fun u => Except.ok u) "Hello world. Hi!"
    (by decide)).1
  exact h.trans (by decide)

/-- C2 counterexample: in the UI entry point, a failed audio
extraction (ffmpeg exits non-zero, so the wrapper returns False) does
not short-circuit the pipeline: the transcribe stage is still invoked
for that video job, contrary to the claim. -/
theorem c2_claim_counterexample :
    Stage.transcribe ∈
      (App.process_file ⟨true, false, "clip", Except.error PyErr.calledProcess,
        Except.ok "Hello there friend", Except.ok (), fun u => Except.ok ("T" ++ u),
        Except.ok (), Except.ok ()⟩).stages := by decide

/-- C2 (amended): in the direct-invocation entry point every stage
failure short-circuits all later transformation stages (extraction
failure stops transcription; a transcription with no usable text stops
translate, synthesize and remux; a translation with no usable text
stops synthesize and remux; a synthesis failure stops remux).  In the
UI entry point a transcription with no usable text still stops
translate and synthesize, but an extraction failure does not prevent
transcription, and the remux runs for every video job that does not
crash. -/
theorem c2_stage_short_circuit (e1 e2 e3 e4 : TM.Env) (a1 a2 a3 : App.Env)
    (err1 err4 : PyErr) :
    (pyToLower e1.ext ∈ TM.video_exts → e1.extractRun = Except.error err1 →
      Stage.transcribe ∉ (TM.main e1).stages) ∧
    (noUsableText (TM.transcribe_audio e2.engine) →
      Stage.translate ∉ (TM.main e2).stages ∧
      Stage.synthesize ∉ (TM.main e2).stages ∧
      Stage.remux ∉ (TM.main e2).stages) ∧
    ((∀ s, noUsableText (TM.translate_text e3.load e3.call s).fst) →
      Stage.synthesize ∉ (TM.main e3).stages ∧ Stage.remux ∉ (TM.main e3).stages) ∧
    (e4.tts = Except.error err4 → Stage.remux ∉ (TM.main e4).stages) ∧
    (noUsableText (App.transcribe_audio a1.engine) →
      Stage.translate ∉ (App.process_file a1).stages ∧
      Stage.synthesize ∉ (App.process_file a1).stages) ∧
    (a2.isVideo = true → a2.extractRun = Except.error PyErr.calledProcess →
      Stage.transcribe ∈ (App.process_file a2).stages) ∧
    (a3.isVideo = true → a3.extractRun = Except.ok () →
      Stage.remux ∈ (App.process_file a3).stages) :=
  ⟨fun hv hx => tm_main_extract_gate e1 err1 hv hx,
    fun hf => tm_main_transcribe_gate e2 hf,
    fun htf => tm_main_translate_gate e3 htf,
    fun ht => tm_main_tts_gate e4 err4 ht,
    fun hf => process_file_transcribe_gate a1 hf,
    fun _hv hx => process_file_transcribe_always a2 (Or.inr hx),
    fun hv hx => process_file_remux_always a3 hv hx⟩

/-- Witness for c2_stage_short_circuit at concrete environments, one
per failure mode. -/
theorem c2_stage_short_circuit_witness :
    Stage.transcribe ∉
      (TM.main ⟨true, ".mp4", "clip", Except.error PyErr.other, Except.ok "Hi there",
        Except.ok (), fun u => Except.ok u, Except.ok (), Except.ok ()⟩).stages ∧
    Stage.translate ∉
      (TM.main ⟨true, ".mp3", "song", Except.ok (), Except.error PyErr.other,
        Except.ok (), fun u => Except.ok u, Except.ok (), Except.ok ()⟩).stages ∧
    Stage.synthesize ∉
      (TM.main ⟨true, ".mp3", "song", Except.ok (), Except.ok "Hi there",
        Except.error PyErr.other, fun u => Except.ok u, Except.ok (), Except.ok ()⟩).stages ∧
    Stage.remux ∉
      (TM.main ⟨true, ".mp4", "clip", Except.ok (), Except.ok "Hi there",
        Except.ok (), fun u => Except.ok u, Except.error PyErr.other, Except.ok ()⟩).stages ∧
    Stage.translate ∉
      (App.process_file ⟨false, true, "song", Except.ok (), Except.error PyErr.other,
        Except.ok (), fun u => Except.ok u, Except.ok (), Except.ok ()⟩).stages ∧
    Stage.transcribe ∈
      (App.process_file ⟨true, false, "clip", Except.error PyErr.calledProcess,
        Except.ok "Hi there", Except.ok (), fun u => Except.ok u, Except.ok (),
        Except.ok ()⟩).stages ∧
    Stage.remux ∈
      (App.process_file ⟨true, false, "clip", Except.ok (), Except.ok "Hi there",
        Except.ok (), fun u => Except.ok u, Except.ok (), Except.ok ()⟩).stages := by
  have h := c2_stage_short_circuit
    ⟨true, ".mp4", "clip", Except.error PyErr.other, Except.ok "Hi there",
      Except.ok (), fun u => Except.ok u, Except.ok (), Except.ok ()⟩
    ⟨true, ".mp3", "song", Except.ok (), Except.error PyErr.other,
      Except.ok (), fun u => Except.ok u, Except.ok (), Except.ok ()⟩
    ⟨true, ".mp3", "song", Except.ok (), Except.ok "Hi there",
      Except.error PyErr.other, fun u => Except.ok u, Except.ok (), Except.ok ()⟩
    ⟨true, ".mp4", "clip", Except.ok (), Except.ok "Hi there",
      Except.ok (), fun u => Except.ok u, Except.error PyErr.other, Except.ok ()⟩
    ⟨false, true, "song", Except.ok (), Except.error PyErr.other,
      Except.ok (), fun u => Except.ok u, Except.ok (), Except.ok ()⟩
    ⟨true, false, "clip", Except.error PyErr.calledProcess, Except.ok "Hi there",
      Except.ok (), fun u => Except.ok u, Except.ok (), Except.ok ()⟩
    ⟨true, false, "clip", Except.ok (), Except.ok "Hi there",
      Except.ok (), fun u => Except.ok u, Except.ok (), Except.ok ()⟩
    PyErr.other PyErr.other
  refine ⟨h.1 (by decide) rfl, (h.2.1 ?_).1, (h.2.2.1 ?_).1, h.2.2.2.1 rfl,
    (h.2.2.2.2.1 ?_).1, h.2.2.2.2.2.1 rfl rfl, h.2.2.2.2.2.2 rfl rfl⟩
  · intro t ht
    simp [TM.transcribe_audio] at ht
  · intro s t ht
    simp [TM.translate_text] at ht
  · intro t ht
    simp [App.transcribe_audio] at ht

/-- C3 counterexample: in the direct-invocation entry point a job
whose transcribe stage fails ends with zero history records, not
exactly one: translate_media.main maintains no history log at all. -/
theorem c3_claim_counterexample :
    (TM.main ⟨true, ".mp3", "song", Except.ok (), Except.error PyErr.other,
      Except.ok (), fun u => Except.ok u, Except.ok (), Except.ok ()⟩).outcome =
        TMOutcome.transcribeFailed ∧
    (TM.main ⟨true, ".mp3", "song", Except.ok (), Except.error PyErr.other,
      Except.ok (), fun u => Except.ok u, Except.ok (), Except.ok ()⟩).historyAppends
        = 0 := by decide

/-- C3 (amended): when the transcribe stage yields no usable text, the
translate and synthesize stages are never invoked in either entry
point; the UI entry point still appends exactly one history record at
pipeline end (given its two ffmpeg calls do not raise), while the
direct entry point maintains no history log and appends zero records. -/
theorem c3_transcribe_failure_history (et : TM.Env) (ea : App.Env)
    (hft : noUsableText (TM.transcribe_audio et.engine))
    (hfa : noUsableText (App.transcribe_audio ea.engine))
    (hx : ea.extractRun = Except.ok ()) (hm : ea.mergeRun = Except.ok ()) :
    (Stage.translate ∉ (TM.main et).stages ∧
      Stage.synthesize ∉ (TM.main et).stages ∧
      (TM.main et).historyAppends = 0) ∧
    (Stage.translate ∉ (App.process_file ea).stages ∧
      Stage.synthesize ∉ (App.process_file ea).stages ∧
      (App.process_file ea).historyAppends = 1) :=
  ⟨⟨(tm_main_transcribe_gate et hft).1, (tm_main_transcribe_gate et hft).2.1,
      tm_main_history_zero et⟩,
    ⟨(process_file_transcribe_gate ea hfa).1, (process_file_transcribe_gate ea hfa).2,
      process_file_history_one ea hx hm⟩⟩

/-- Witness for c3_transcribe_failure_history at concrete environments
whose speech engine raises. -/
theorem c3_transcribe_failure_history_witness :
    (Stage.translate ∉
        (TM.main ⟨true, ".mp3", "song", Except.ok (), Except.error PyErr.other,
          Except.ok (), fun u => Except.ok u, Except.ok (), Except.ok ()⟩).stages ∧
      Stage.synthesize ∉
        (TM.main ⟨true, ".mp3", "song", Except.ok (), Except.error PyErr.other,
          Except.ok (), fun u => Except.ok u, Except.ok (), Except.ok ()⟩).stages ∧
      (TM.main ⟨true, ".mp3", "song", Except.ok (), Except.error PyErr.other,
          Except.ok (), fun u => Except.ok u, Except.ok (), Except.ok ()⟩).historyAppends
        = 0) ∧
    (Stage.translate ∉
        (App.process_file ⟨true, false, "clip", Except.ok (), Except.error PyErr.other,
          Except.ok (), fun u => Except.ok u, Except.ok (), Except.ok ()⟩).stages ∧
      Stage.synthesize ∉
        (App.process_file ⟨true, false, "clip", Except.ok (), Except.error PyErr.other,
          Except.ok (), fun u => Except.ok u, Except.ok (), Except.ok ()⟩).stages ∧
      (App.process_file ⟨true, false, "clip", Except.ok (), Except.error PyErr.other,
          Except.ok (), fun u => Except.ok u, Except.ok (), Except.ok ()⟩).historyAppends
        = 1) := by
  refine c3_transcribe_failure_history _ _ ?_ ?_ rfl rfl
  · intro t ht
    simp [TM.transcribe_audio] at ht
  · intro t ht
    simp [App.transcribe_audio] at ht

/-- C4 counterexample: the extract wrapper catches only
CalledProcessError; any other exception (here a FileNotFoundError,
e.g. a missing ffmpeg executable) crosses the stage boundary uncaught
instead of being converted into a failure result. -/
theorem c4_claim_counterexample :
    TM.extract_audio_from_video (Except.error PyErr.fileNotFound) =
      Except.error PyErr.fileNotFound ∧
    exceptOk (TM.extract_audio_from_video (Except.error PyErr.fileNotFound)) = false := by
  exact ⟨rfl, rfl⟩

/-- C4 (amended): the transcribe, translate and synthesize wrappers of
both entry points catch every underlying error and return a
success-or-failure result, never raising; the extract and remux
wrappers convert a failed external process exit (CalledProcessError)
into False and a successful run into True, but propagate any other
exception to their caller. -/
theorem c4_wrapper_error_conversion (eng : Except PyErr String)
    (load : Except PyErr Unit) (call : String → Except PyErr String) (s : String)
    (tts : Except PyErr Unit) (e : PyErr) :
    exceptOk (TM.transcribe_audio eng) = true ∧
    exceptOk (TM.translate_text load call s).fst = true ∧
    exceptOk (TM.text_to_speech_gtts tts) = true ∧
    exceptOk (App.transcribe_audio eng) = true ∧
    exceptOk (App.translate_text load call s).fst = true ∧
    exceptOk (App.text_to_speech_gtts tts) = true ∧
    TM.extract_audio_from_video (Except.ok ()) = Except.ok true ∧
    TM.extract_audio_from_video (Except.error PyErr.calledProcess) = Except.ok false ∧
    (e ≠ PyErr.calledProcess →
      TM.extract_audio_from_video (Except.error e) = Except.error e) ∧
    TM.merge_audio_with_video_simple (Except.ok ()) = Except.ok true ∧
    TM.merge_audio_with_video_simple (Except.error PyErr.calledProcess) = Except.ok false ∧
    (e ≠ PyErr.calledProcess →
      TM.merge_audio_with_video_simple (Except.error e) = Except.error e) := by
  refine ⟨?_, ?_, ?_, ?_, ?_, ?_, rfl, rfl, ?_, rfl, rfl, ?_⟩
  · rcases eng <;> rfl
  · rcases load with e2 | u
    · rfl
    · unfold TM.translate_text
      by_cases h : pyStrip s = "" <;> simp [h, exceptOk]
  · rcases tts <;> rfl
  · rcases eng <;> rfl
  · rcases load with e2 | u
    · rfl
    · rcases hc : call s with e3 | t <;> simp [App.translate_text, hc, exceptOk]
  · rcases tts <;> rfl
  · intro he
    cases e
    · exact absurd rfl he
    · rfl
    · rfl
  · intro he
    cases e
    · exact absurd rfl he
    · rfl
    · rfl

/-- Witness for c4_wrapper_error_conversion at concrete inputs, with
the propagated exception taken to be FileNotFoundError. -/
theorem c4_wrapper_error_conversion_witness :
    exceptOk (TM.transcribe_audio (Except.error PyErr.other)) = true ∧
    TM.extract_audio_from_video (Except.error PyErr.fileNotFound) =
      Except.error PyErr.fileNotFound ∧
    TM.merge_audio_with_video_simple (Except.error PyErr.fileNotFound) =
      Except.error PyErr.fileNotFound := by
  have h := c4_wrapper_error_conversion (Except.error PyErr.other) (Except.ok ())
    (fun u => Except.ok u) "Hi there" (Except.ok ()) PyErr.fileNotFound
  exact ⟨h.1, h.2.2.2.2.2.2.2.2.1 (by decide), h.2.2.2.2.2.2.2.2.2.2.2 (by decide)⟩

/-- C7 counterexample: in the direct-invocation entry point the
transient extraction target is the fixed path
translated_output/temp_audio.wav, not a path derived from the base
name: for the base name "movie" the claimed path
translated_output/movie_temp_audio.wav is not used. -/
theorem c7_claim_counterexample :
    (TM.main ⟨true, ".mp4", "movie", Except.ok (), Except.ok "Hi there",
      Except.ok (), fun u => Except.ok u, Except.ok (), Except.ok ()⟩).tempAudioPath =
        some "translated_output/temp_audio.wav" ∧
    some "translated_output/temp_audio.wav" ≠
      (some "translated_output/movie_temp_audio.wav" : Option String) := by
  refine ⟨by decide, by decide⟩

/-- C7 (amended): artifact paths are a pure deterministic function of
base name and output directory: the final audio path is
base_name_hindi.wav in the output directory and the final video path
(video inputs only) is base_name_hindi.mp4 in both entry points; the
transient extraction target is base_name_temp_audio.wav in the UI
entry point but the fixed temp_audio.wav in the direct-invocation
entry point. -/
theorem c7_artifact_paths (ev ea : TM.Env) (ap : App.Env)
    (hexv : ev.inputExists = true) (hvv : pyToLower ev.ext ∈ TM.video_exts)
    (hexa : ea.inputExists = true) (hva : pyToLower ea.ext ∉ TM.video_exts)
    (haa : pyToLower ea.ext ∈ TM.audio_exts) :
    ((TM.main ev).outputAudioPath =
        some (os_path_join "translated_output" (ev.baseName ++ "_hindi.wav")) ∧
      (TM.main ev).outputVideoPath =
        some (os_path_join "translated_output" (ev.baseName ++ "_hindi.mp4")) ∧
      (TM.main ev).tempAudioPath = some (os_path_join "translated_output" "temp_audio.wav")) ∧
    ((TM.main ea).outputAudioPath =
        some (os_path_join "translated_output" (ea.baseName ++ "_hindi.wav")) ∧
      (TM.main ea).outputVideoPath = none ∧
      (TM.main ea).tempAudioPath = none) ∧
    ((App.process_file ap).outputAudioPath =
        os_path_join "translated_output" (ap.baseName ++ "_hindi.wav") ∧
      (ap.isVideo = true →
        (App.process_file ap).outputVideoPath =
          some (os_path_join "translated_output" (ap.baseName ++ "_hindi.mp4")) ∧
        (App.process_file ap).tempAudioPath =
          some (os_path_join "translated_output" (ap.baseName ++ "_temp_audio.wav"))) ∧
      (ap.isVideo = false →
        (App.process_file ap).outputVideoPath = none ∧
        (App.process_file ap).tempAudioPath = none)) := by
  refine ⟨?_, ?_, ?_⟩
  · rw [tm_main_video ev hexv hvv]
    rcases hx : ev.extractRun with e | u
    · cases e <;> simp [TM.extract_audio_from_video, tmVideoBase]
    · cases u
      simp only [TM.extract_audio_from_video]
      have h := mainAfterExtract_fixed ev true (tmVideoBase ev) [Stage.extract]
      rw [h.2.2.2.1, h.2.2.2.2.1, h.2.2.2.2.2]
      exact ⟨rfl, rfl, rfl⟩
  · rw [tm_main_audio ea hexa hva haa]
    have h := mainAfterExtract_fixed ea false (tmAudioBase ea) []
    rw [h.2.2.2.1, h.2.2.2.2.1, h.2.2.2.2.2]
    exact ⟨rfl, rfl, rfl⟩
  · obtain ⟨p1, p2, p3⟩ := process_file_paths ap
    refine ⟨p1, ?_, ?_⟩
    · intro hv
      exact ⟨by simp [p2, hv], by simp [p3, hv]⟩
    · intro hv
      exact ⟨by simp [p2, hv], by simp [p3, hv]⟩

/-- Witness for c7_artifact_paths at concrete video, audio and UI
environments with base names "movie", "song" and "clip". -/
theorem c7_artifact_paths_witness :
    ((TM.main ⟨true, ".mp4", "movie", Except.ok (), Except.ok "Hi there",
        Except.ok (), fun u => Except.ok u, Except.ok (), Except.ok ()⟩).outputAudioPath =
      some (os_path_join "translated_output" ("movie" ++ "_hindi.wav")) ∧
      (TM.main ⟨true, ".mp4", "movie", Except.ok (), Except.ok "Hi there",
        Except.ok (), fun u => Except.ok u, Except.ok (), Except.ok ()⟩).outputVideoPath =
      some (os_path_join "translated_output" ("movie" ++ "_hindi.mp4")) ∧
      (TM.main ⟨true, ".mp4", "movie", Except.ok (), Except.ok "Hi there",
        Except.ok (), fun u => Except.ok u, Except.ok (), Except.ok ()⟩).tempAudioPath =
      some (os_path_join "translated_output" "temp_audio.wav")) ∧
    ((TM.main ⟨true, ".mp3", "song", Except.ok (), Except.ok "Hi there",
        Except.ok (), fun u => Except.ok u, Except.ok (), Except.ok ()⟩).outputAudioPath =
      some (os_path_join "translated_output" ("song" ++ "_hindi.wav")) ∧
      (TM.main ⟨true, ".mp3", "song", Except.ok (), Except.ok "Hi there",
        Except.ok (), fun u => Except.ok u, Except.ok (), Except.ok ()⟩).outputVideoPath =
        none ∧
      (TM.main ⟨true, ".mp3", "song", Except.ok (), Except.ok "Hi there",
        Except.ok (), fun u => Except.ok u, Except.ok (), Except.ok ()⟩).tempAudioPath =
        none) ∧
    ((App.process_file ⟨true, false, "clip", Except.ok (), Except.ok "Hi there",
        Except.ok (), fun u => Except.ok u, Except.ok (), Except.ok ()⟩).outputAudioPath =
      os_path_join "translated_output" ("clip" ++ "_hindi.wav") ∧
      (App.process_file ⟨true, false, "clip", Except.ok (), Except.ok "Hi there",
        Except.ok (), fun u => Except.ok u, Except.ok (), Except.ok ()⟩).outputVideoPath =
      some (os_path_join "translated_output" ("clip" ++ "_hindi.mp4")) ∧
      (App.process_file ⟨true, false, "clip", Except.ok (), Except.ok "Hi there",
        Except.ok (), fun u => Except.ok u, Except.ok (), Except.ok ()⟩).tempAudioPath =
      some (os_path_join "translated_output" ("clip" ++ "_temp_audio.wav"))) := by
  have h := c7_artifact_paths
    ⟨true, ".mp4", "movie", Except.ok (), Except.ok "Hi there",
      Except.ok (), fun u => Except.ok u, Except.ok (), Except.ok ()⟩
    ⟨true, ".mp3", "song", Except.ok (), Except.ok "Hi there",
      Except.ok (), fun u => Except.ok u, Except.ok (), Except.ok ()⟩
    ⟨true, false, "clip", Except.ok (), Except.ok "Hi there",
      Except.ok (), fun u => Except.ok u, Except.ok (), Except.ok ()⟩
    rfl (by decide) rfl (by decide) (by decide)
  exact ⟨h.1, h.2.1, ⟨h.2.2.1, (h.2.2.2.1 rfl).1, (h.2.2.2.1 rfl).2⟩⟩
